import Mathlib

/-!
Shallow embedding of the Wirepas provisioning server
(`wirepas_provisioning_server`): the wire codec (`message.py`), the
cryptographic construction protecting the DATA payload, and the
per-session provisioning state machine (`session.py`).

Bytes are modelled as `List Nat` (each element a byte value); Python
`bytes` indexing `p[i]` is `p[i]?` (an out-of-range index raises
`IndexError`), and slicing `p[a:b]` is clamped `drop`/`take` as in
Python.  Fallible byte construction (`bytes([x])` and
`int.to_bytes(2, "little")`, which raise `ValueError`/`OverflowError`
out of range) is modelled with `Option`.
-/

namespace Prov

/-- Little-endian value of a byte string (`int.from_bytes(bs, "little")`,
unsigned). -/
def bytesToNatLE (bs : List Nat) : Nat :=
  bs.foldr (fun b acc => b + 256 * acc) 0

/-- `int.from_bytes(bs, byteorder="little", signed=True)`: two's-complement
interpretation of a little-endian byte string. -/
def bytesToIntLEsigned (bs : List Nat) : Int :=
  let u := bytesToNatLE bs
  if 2 * u ≥ 256 ^ bs.length then (u : Int) - (256 ^ bs.length : Int) else (u : Int)

/-- `bytes([n])`: a single byte, failing (Python `ValueError`) when the
value does not fit in a byte. -/
def byte1 (n : Nat) : Option (List Nat) :=
  if n < 256 then some [n] else none

/-- `n.to_bytes(2, byteorder="little")` on a Python `int`: fails with
`OverflowError` when `n` is negative or does not fit in two bytes. -/
def intToBytes2LE (n : Int) : Option (List Nat) :=
  if 0 ≤ n ∧ n < 65536 then some [(n.toNat) % 256, (n.toNat) / 256] else none

/-- `n.to_bytes(16, byteorder="little")` for `n < 2^128` (the source takes
the value mod `2^128` first, so this total version is exact there). -/
def natToBytes16LE (n : Nat) : List Nat :=
  (List.range 16).map (fun i => n / 256 ^ i % 256)

/-- Python slice `p[a:b]` with `0 ≤ a ≤ b` (clamped like Python). -/
def pySlice (p : List Nat) (a b : Nat) : List Nat :=
  (p.drop a).take (b - a)

/-- Python slice `p[a:-k]` (negative end index, clamped like Python). -/
def pySliceNeg (p : List Nat) (a k : Nat) : List Nat :=
  (p.take (p.length - k)).drop a

end Prov

namespace Prov

/-- Wire fields of a START frame (`ProvisioningMessageSTART`). -/
structure StartFields where
  nodeAddress : List Nat
  sessionId : Nat
  method : Nat
  iv : List Nat
  uid : List Nat
  deriving Repr, DecidableEq

/-- Wire fields of a DATA frame (`ProvisioningMessageDATA`).  The counter
is an `Int` because `from_message` decodes it with `signed=True`. -/
structure DataFields where
  nodeAddress : List Nat
  sessionId : Nat
  keyIndex : Nat
  counter : Int
  data : List Nat
  mic : List Nat
  deriving Repr, DecidableEq

/-- Wire fields of a DATA_ACK frame (`ProvisioningMessageDATA_ACK`). -/
structure AckFields where
  nodeAddress : List Nat
  sessionId : Nat
  deriving Repr, DecidableEq

/-- Wire fields of a NACK frame (`ProvisioningMessageNACK`). -/
structure NackFields where
  nodeAddress : List Nat
  sessionId : Nat
  reason : Nat
  deriving Repr, DecidableEq

/-- A decoded provisioning frame (result of `ProvisioningMessageFactory.map`). -/
inductive DecodedFrame where
  | start (f : StartFields)
  | data (f : DataFields)
  | dataAck (f : AckFields)
  | nack (f : NackFields)
  deriving Repr, DecidableEq

/-- Errors a decode can raise: `ProvisioningMessageException` (the
invalid-message error, also raised by `map` for unknown types), or an
uncaught Python `IndexError` from indexing a too-short payload (`map`
catches only `KeyError`, `TypeError` and `ValueError`). -/
inductive DecodeErr where
  | invalidMessage
  | indexError
  deriving Repr, DecidableEq

instance {ε α : Type} [DecidableEq ε] [DecidableEq α] : DecidableEq (Except ε α) := fun x y =>
  match x, y with
  | .ok a, .ok b => if h : a = b then .isTrue (by rw [h]) else .isFalse (by simp [h])
  | .error e, .error e' => if h : e = e' then .isTrue (by rw [h]) else .isFalse (by simp [h])
  | .ok _, .error _ => .isFalse (by simp)
  | .error _, .ok _ => .isFalse (by simp)

/-- `ProvisioningMessageSTART` construction followed by the `payload`
property: validation from `__init__` (method in {0,1,3}, 16-byte IV,
non-empty UID) then serialization
`msg_type ‖ node_address ‖ session_id ‖ method ‖ iv ‖ uid`. -/
def startFramePayload (f : StartFields) : Option (List Nat) :=
  if f.method = 0 ∨ f.method = 1 ∨ f.method = 3 then
    if f.iv.length = 16 then
      if f.uid.length > 0 then
        match byte1 f.sessionId, byte1 f.method with
        | some sid, some m => some ([1] ++ f.nodeAddress ++ sid ++ m ++ f.iv ++ f.uid)
        | _, _ => none
      else none
    else none
  else none

/-- `ProvisioningMessageDATA` construction followed by the `payload`
property, on the constructor's parameters: validation from `__init__`
(non-empty data, MIC length 0 or 5) then serialization
`msg_type ‖ node_address ‖ session_id ‖ key_index ‖ counter(LE16) ‖ data ‖ mic`. -/
def dataPayloadCore (nodeAddress : List Nat) (sessionId : Nat) (counter : Int)
    (data : List Nat) (keyIndex : Nat) (mic : List Nat) : Option (List Nat) :=
  if data.length > 0 then
    if mic.length = 0 ∨ mic.length = 5 then
      match byte1 sessionId, byte1 keyIndex, intToBytes2LE counter with
      | some sid, some ki, some ctr =>
          some ([2] ++ nodeAddress ++ sid ++ ki ++ ctr ++ data ++ mic)
      | _, _, _ => none
    else none
  else none

/-- `ProvisioningMessageDATA` encode on a frame value. -/
def dataFramePayload (f : DataFields) : Option (List Nat) :=
  dataPayloadCore f.nodeAddress f.sessionId f.counter f.data f.keyIndex f.mic

/-- `ProvisioningMessageDATA_ACK` `payload`: the bare 6-byte header. -/
def ackFramePayload (f : AckFields) : Option (List Nat) :=
  match byte1 f.sessionId with
  | some sid => some ([3] ++ f.nodeAddress ++ sid)
  | none => none

/-- `ProvisioningMessageNACK` construction followed by the `payload`
property, on the constructor's parameters: validation from `__init__`
(reason in {0,1,2,3}) then serialization
`msg_type ‖ node_address ‖ session_id ‖ reason`. -/
def nackPayloadCore (nodeAddress : List Nat) (sessionId reason : Nat) : Option (List Nat) :=
  if reason = 0 ∨ reason = 1 ∨ reason = 2 ∨ reason = 3 then
    match byte1 sessionId, byte1 reason with
    | some sid, some r => some ([4] ++ nodeAddress ++ sid ++ r)
    | _, _ => none
  else none

/-- `ProvisioningMessageNACK` encode on a frame value. -/
def nackFramePayload (f : NackFields) : Option (List Nat) :=
  nackPayloadCore f.nodeAddress f.sessionId f.reason

/-- `ProvisioningMessageSTART.from_message` on the raw payload (the
envelope fields are not wire data and are carried separately): reads the
method byte at index 6 (an `IndexError` if absent), validates it, then
runs `__init__` on the slices `p[1:5]`, `p[5]`, `p[7:23]`, `p[23:]`. -/
def decodeStart (p : List Nat) : Except DecodeErr StartFields :=
  match p[6]? with
  | none => .error .indexError
  | some m =>
    if m = 0 ∨ m = 1 ∨ m = 3 then
      let iv := pySlice p 7 23
      let uid := p.drop 23
      if iv.length = 16 then
        if uid.length > 0 then
          match p[5]? with
          | some sid => .ok ⟨pySlice p 1 5, sid, m, iv, uid⟩
          | none => .error .indexError
        else .error .invalidMessage
      else .error .invalidMessage
    else .error .invalidMessage

/-- `ProvisioningMessageDATA.from_message` on the raw payload: the counter
is read signed little-endian from bytes 7..9 (the source reads it from
`message.payload`, modelled as the same byte string as `data_payload`),
then `__init__` runs on `p[1:5]`, `p[5]`, `p[6]`, `p[9:-6]` (data) and
`p[:-5]` (mic). -/
def decodeData (p : List Nat) : Except DecodeErr DataFields :=
  let counter := bytesToIntLEsigned (pySlice p 7 9)
  match p[5]?, p[6]? with
  | some sid, some ki =>
    let data := pySliceNeg p 9 6
    let mic := p.take (p.length - 5)
    if data.length > 0 then
      if mic.length = 0 ∨ mic.length = 5 then
        .ok ⟨pySlice p 1 5, sid, ki, counter, data, mic⟩
      else .error .invalidMessage
    else .error .invalidMessage
  | _, _ => .error .indexError

/-- `ProvisioningMessageDATA_ACK.from_message` on the raw payload. -/
def decodeAck (p : List Nat) : Except DecodeErr AckFields :=
  match p[5]? with
  | some sid => .ok ⟨pySlice p 1 5, sid⟩
  | none => .error .indexError

/-- `ProvisioningMessageNACK.from_message` on the raw payload: reads the
reason byte at index 6 (an `IndexError` if absent), validates it in
{0,1,2,3}, then `__init__` on `p[1:5]`, `p[5]`. -/
def decodeNack (p : List Nat) : Except DecodeErr NackFields :=
  match p[6]? with
  | none => .error .indexError
  | some r =>
    if r = 0 ∨ r = 1 ∨ r = 2 ∨ r = 3 then
      match p[5]? with
      | some sid => .ok ⟨pySlice p 1 5, sid, r⟩
      | none => .error .indexError
    else .error .invalidMessage

/-- `ProvisioningMessageFactory.map` on the raw payload: dispatch on the
first byte (an `IndexError` on an empty payload is not among the caught
exception classes; an unknown type byte raises `ValueError`, caught and
re-raised as the invalid-message error). -/
def factoryMap (p : List Nat) : Except DecodeErr DecodedFrame :=
  match p[0]? with
  | none => .error .indexError
  | some t =>
    if t = 1 then (decodeStart p).map .start
    else if t = 2 then (decodeData p).map .data
    else if t = 3 then (decodeAck p).map .dataAck
    else if t = 4 then (decodeNack p).map .nack
    else .error .invalidMessage

end Prov

namespace Prov

/-- AES-CTR keystream (pycryptodome `Counter.new(128, little_endian=True,
allow_wraparound=True)`): block `i` encrypts the little-endian
serialization of `(icb + i) mod 2^128`; one extra block beyond `n / 16`
is generated and the stream truncated to `n` bytes. -/
def ctrKeystream (aes : List Nat → List Nat → List Nat) (key : List Nat)
    (icb n : Nat) : List Nat :=
  (((List.range (n / 16 + 1)).map
      (fun i => aes key (natToBytes16LE ((icb + i) % 2 ^ 128)))).flatten).take n

/-- AES-CTR encryption: XOR of the message with the keystream. -/
def ctrEncrypt (aes : List Nat → List Nat → List Nat) (key : List Nat)
    (icb : Nat) (msg : List Nat) : List Nat :=
  List.zipWith Nat.xor msg (ctrKeystream aes key icb msg.length)

/-- `ProvisioningSession._encrypt_packet`, parametric in the AES block
cipher `aes` and the full 16-byte CMAC tag function `cmac`: splits the
factory key, increments the counter, authenticates the DATA frame built
from the post-increment counter and the plaintext (key_index defaulting
to 1, no MIC), truncates the tag to 5 bytes, derives the initial counter
block from the IV, and CTR-encrypts plaintext ‖ mic.  Returns the new
counter value and the ciphertext; `none` models the uncaught
`OverflowError`/`ProvisioningMessageException` from the payload build. -/
def encryptPacket (aes cmac : List Nat → List Nat → List Nat)
    (factoryKey nodeAddr : List Nat) (sid counter : Nat)
    (iv plain : List Nat) : Option (Nat × List Nat) :=
  match dataPayloadCore nodeAddr sid ((counter + 1 : Nat) : Int) plain 1 [] with
  | none => none
  | some toAuth =>
    some (counter + 1,
      ctrEncrypt aes (pySlice factoryKey 16 32)
        ((counter + 1 + bytesToNatLE iv) % 2 ^ 128)
        (plain ++ (cmac (pySlice factoryKey 0 16) toAuth).take 5))

end Prov

namespace Prov

/-- `wirepas_mesh_messaging.GatewayResultCode`: one success value, all
others treated alike by the session. -/
inductive GwRes where
  | ok
  | fail (code : Nat)
  deriving Repr, DecidableEq

/-- Envelope metadata carried alongside a decoded frame. -/
structure Envelope where
  gwId : Option Nat
  sinkId : Option Nat
  txTime : Option Int
  deriving Repr, DecidableEq

/-- A decoded inbound frame together with its envelope, as delivered to a
session inside a `ProvisioningEventPacketReceived`. -/
inductive Frame where
  | start (w : StartFields) (env : Envelope)
  | data (w : DataFields) (env : Envelope)
  | dataAck (w : AckFields) (env : Envelope)
  | nack (w : NackFields) (env : Envelope)
  deriving Repr, DecidableEq

/-- Envelope of a frame. -/
def Frame.env : Frame → Envelope
  | .start _ e => e
  | .data _ e => e
  | .dataAck _ e => e
  | .nack _ e => e

/-- `ProvisioningEvent`: a received packet or the timer firing. -/
inductive PEvent where
  | packetReceived (f : Frame)
  | timeout
  deriving Repr, DecidableEq

/-- `ProvisioningStates`. -/
inductive PState where
  | idle
  | waitResponse
  deriving Repr, DecidableEq

/-- `ProvisioningStatus`. -/
inductive PStatus where
  | ongoing
  | success
  | failure
  | errorNoAck
  | errorSendingData
  | errorSendingNack
  | errorNotAuthorized
  | errorNotStart
  | errorInvalidState
  | errorNackReceived
  | errorNoResponse
  deriving Repr, DecidableEq

/-- One transport send: destination used and payload
(`ProvisioningSession._send_packet` passes `self.gw_id`, `self.sink_id`). -/
structure Emission where
  gwId : Option Nat
  sinkId : Option Nat
  payload : List Nat
  deriving Repr, DecidableEq

/-- Per-UID configuration consumed by the session
(`self.data[uid]["method"]`, `self.data[uid]["factory_key"]`). -/
structure NodeCfg where
  method : Nat
  factoryKey : List Nat
  deriving Repr, DecidableEq

/-- The session's collaborators: the configuration (`ProvisioningData`
lookup and `getCbor`), the crypto primitives, and the transport result
for the n-th send of the session (`self.send_func`). -/
structure SessionCtx where
  lookup : List Nat → Option NodeCfg
  cbor : List Nat → List Nat
  aes : List Nat → List Nat → List Nat
  cmac : List Nat → List Nat → List Nat
  res : Nat → GwRes

/-- Mutable state of a `ProvisioningSession`, plus the log of transport
sends (`sent`) and a count of timer arms (`timerArms`) to observe
restarts; `timer` is whether the timeout timer is armed. -/
structure SState where
  nodeAddr : List Nat
  sid : Nat
  counter : Nat
  state : PState
  status : PStatus
  retry : Int
  gwId : Option Nat
  sinkId : Option Nat
  txTime : Int
  timer : Bool
  timerArms : Nat
  sent : List Emission
  deriving Repr, DecidableEq

/-- `ProvisioningSession._update_origin`: adopt the frame's origin when
its `tx_time` is truthy (non-`None`, non-zero) and strictly above the
highest one seen. -/
def updateOrigin (st : SState) (env : Envelope) : SState :=
  match env.txTime with
  | some t =>
      if t ≠ 0 ∧ st.txTime < t then
        { st with sinkId := env.sinkId, gwId := env.gwId, txTime := t }
      else st
  | none => st

/-- `ProvisioningSession._timer_start` (cancels any armed timer, arms a
new one). -/
def timerStart (st : SState) : SState :=
  { st with timer := true, timerArms := st.timerArms + 1 }

/-- `ProvisioningSession._timer_cancel`. -/
def timerCancel (st : SState) : SState :=
  { st with timer := false }

/-- One `self._send_packet(payload)` call: log the emission with the
session's current destination and yield the transport's result. -/
def sendAttempt (ctx : SessionCtx) (st : SState) (p : List Nat) : SState × GwRes :=
  ({ st with sent := st.sent ++ [⟨st.gwId, st.sinkId, p⟩] }, ctx.res st.sent.length)

/-- The `while True` retry loop shared by the DATA and NACK paths of
`_process_start`: entered with the result `r` of a send already
performed; on `GW_RES_OK` run the success action, otherwise decrement
`retry`, re-send while `retry ≥ 0`, and run the failure action when
exhausted. -/
def sendLoop (ctx : SessionCtx) (p : List Nat) (onOk onFail : SState → SState)
    (st : SState) (r : GwRes) : SState :=
  if r = .ok then onOk st
  else if st.retry - 1 ≥ 0 then
    let a := sendAttempt ctx { st with retry := st.retry - 1 } p
    sendLoop ctx p onOk onFail a.1 a.2
  else onFail { st with retry := st.retry - 1 }
termination_by (st.retry + 1).toNat
decreasing_by simp [sendAttempt]; omega

/-- A full emission: first send followed by the retry loop. -/
def emitWithRetries (ctx : SessionCtx) (p : List Nat)
    (onOk onFail : SState → SState) (st : SState) : SState :=
  let a := sendAttempt ctx st p
  sendLoop ctx p onOk onFail a.1 a.2

/-- DATA send success: enter `WAIT_RESPONSE` and start the timer. -/
def onOkData (st : SState) : SState :=
  timerStart { st with state := .waitResponse }

/-- DATA send retries exhausted: cancel timer, `ERROR_SENDING_DATA`. -/
def onFailData (st : SState) : SState :=
  { st with timer := false, status := .errorSendingData }

/-- NACK send success: `ERROR_NOT_AUTHORIZED`, cancel timer if armed. -/
def onOkNack (st : SState) : SState :=
  { st with status := .errorNotAuthorized, timer := false }

/-- NACK send retries exhausted: cancel timer, `ERROR_SENDING_NACK`. -/
def onFailNack (st : SState) : SState :=
  { st with timer := false, status := .errorSendingNack }

/-- The `else` branch of `_process_start`: set `ERROR_NOT_AUTHORIZED`,
build the NACK for the given reason and emit it with retries. -/
def nackBranch (ctx : SessionCtx) (st : SState) (reason : Nat) : Option SState :=
  match nackPayloadCore st.nodeAddr st.sid reason with
  | none => none
  | some p =>
      some (emitWithRetries ctx p onOkNack onFailNack
        { st with status := PStatus.errorNotAuthorized })

/-- `ProvisioningSession._process_start`: known UID with matching method
builds (and for non-UNSECURED methods encrypts, incrementing the
counter) the DATA packet and emits it with retries; unknown UID or
method mismatch emits a NACK with the corresponding reason.  `none`
models an uncaught exception from payload construction. -/
def processStart (ctx : SessionCtx) (st : SState) (m : StartFields) : Option SState :=
  match ctx.lookup m.uid with
  | some node =>
    if node.method = m.method then
      match
        (if m.method = 0 then some (0, st.counter, ctx.cbor m.uid)
         else (encryptPacket ctx.aes ctx.cmac node.factoryKey st.nodeAddr st.sid
                 st.counter m.iv (ctx.cbor m.uid)).map
                (fun ce => (1, ce.1, ce.2)) : Option (Nat × Nat × List Nat))
      with
      | none => none
      | some (ki, c, db) =>
        match dataPayloadCore st.nodeAddr st.sid (c : Int) db ki [] with
        | none => none
        | some p =>
            some (emitWithRetries ctx p onOkData onFailData { st with counter := c })
    else nackBranch ctx st 1
  | none => nackBranch ctx st 0

/-- `ProvisioningSession._state_idle`: a received START is processed
(after the origin update); anything else is terminal `ERROR_NOT_START`. -/
def stateIdle (ctx : SessionCtx) (st : SState) (e : PEvent) : Option SState :=
  match e with
  | .packetReceived (.start w env) => processStart ctx (updateOrigin st env) w
  | _ => some { (timerCancel st) with status := PStatus.errorNotStart }

/-- `ProvisioningSession._state_wait_response`: origin update on every
received packet; START re-runs `_process_start` then restarts the timer;
DATA_ACK is terminal `SUCCESS`; NACK is terminal `ERROR_NACK_RECEIVED`;
a DATA frame matches no branch; a timeout is terminal
`ERROR_NO_RESPONSE`. -/
def stateWaitResponse (ctx : SessionCtx) (st : SState) (e : PEvent) : Option SState :=
  match e with
  | .packetReceived (.start w env) =>
      (processStart ctx (updateOrigin st env) w).map timerStart
  | .packetReceived (.dataAck _ env) =>
      some { (timerCancel (updateOrigin st env)) with status := PStatus.success }
  | .packetReceived (.nack _ env) =>
      some { (timerCancel (updateOrigin st env)) with status := PStatus.errorNackReceived }
  | .packetReceived (.data _ env) =>
      some (updateOrigin st env)
  | .timeout => some { (timerCancel st) with status := PStatus.errorNoResponse }

/-- One iteration of `ProvisioningSession.run`, dispatching on the
session state. -/
def step (ctx : SessionCtx) (st : SState) (e : PEvent) : Option SState :=
  match st.state with
  | .idle => stateIdle ctx st e
  | .waitResponse => stateWaitResponse ctx st e

/-- The `run` loop over a queue of events: events are consumed only while
`status == ONGOING`; the unconsumed remainder is returned. -/
def runEvents (ctx : SessionCtx) (st : SState) : List PEvent → Option (SState × List PEvent)
  | [] => some (st, [])
  | e :: rest =>
    if st.status = PStatus.ongoing then
      match step ctx st e with
      | none => none
      | some st' => runEvents ctx st' rest
    else some (st, e :: rest)

end Prov


namespace Prov

lemma byte1_of_lt {n : Nat} (h : n < 256) : byte1 n = some [n] := by
  simp [byte1, h]

lemma intToBytes2LE_natCast {c : Nat} (h : c < 65536) :
    intToBytes2LE (c : Int) = some [c % 256, c / 256] := by
  unfold intToBytes2LE
  rw [if_pos ⟨Int.natCast_nonneg c, by exact_mod_cast h⟩, Int.toNat_natCast]

lemma intToBytes2LE_overflow {c : Nat} (h : 65536 ≤ c) :
    intToBytes2LE (c : Int) = none := by
  unfold intToBytes2LE
  rw [if_neg]
  rintro ⟨-, h2⟩
  have : (65536 : Int) ≤ (c : Int) := by exact_mod_cast h
  omega

lemma dataPayloadCore_eq {addr : List Nat} {sid ki c : Nat} {data : List Nat}
    (hd : data ≠ []) (hs : sid < 256) (hk : ki < 256) (hc : c < 65536) :
    dataPayloadCore addr sid (c : Int) data ki [] =
      some ([2] ++ addr ++ [sid] ++ [ki] ++ [c % 256, c / 256] ++ data) := by
  have hd' : data.length > 0 := List.length_pos.mpr hd
  unfold dataPayloadCore
  rw [if_pos hd',
    if_pos (Or.inl rfl : ([] : List Nat).length = 0 ∨ ([] : List Nat).length = 5),
    byte1_of_lt hs, byte1_of_lt hk, intToBytes2LE_natCast hc]
  simp

lemma dataPayloadCore_overflow {addr : List Nat} {sid ki c : Nat} {data mic : List Nat}
    (hc : 65536 ≤ c) :
    dataPayloadCore addr sid (c : Int) data ki mic = none := by
  unfold dataPayloadCore
  rw [intToBytes2LE_overflow hc]
  split
  · split
    · cases byte1 sid <;> cases byte1 ki <;> rfl
    · rfl
  · rfl

lemma nackPayloadCore_eq {addr : List Nat} {sid r : Nat}
    (hr : r = 0 ∨ r = 1 ∨ r = 2 ∨ r = 3) (hs : sid < 256) :
    nackPayloadCore addr sid r = some ([4] ++ addr ++ [sid] ++ [r]) := by
  have hr' : r < 256 := by omega
  unfold nackPayloadCore
  rw [if_pos hr, byte1_of_lt hs, byte1_of_lt hr']

lemma flatten_map_const_length {α : Type} (l : List α) (f : α → List Nat)
    (hf : ∀ a, (f a).length = 16) : ((l.map f).flatten).length = 16 * l.length := by
  induction l with
  | nil => simp
  | cons a t ih =>
      simp only [List.map_cons, List.flatten_cons, List.length_append, ih, hf,
        List.length_cons]
      ring

lemma ctrKeystream_length {aes : List Nat → List Nat → List Nat} {key : List Nat}
    (hAes : ∀ k b, (aes k b).length = 16) (icb n : Nat) :
    (ctrKeystream aes key icb n).length = n := by
  rw [ctrKeystream, List.length_take,
    flatten_map_const_length _ _ (fun a => hAes key _), List.length_range]
  omega

lemma ctrEncrypt_length {aes : List Nat → List Nat → List Nat} {key : List Nat}
    (hAes : ∀ k b, (aes k b).length = 16) (icb : Nat) (msg : List Nat) :
    (ctrEncrypt aes key icb msg).length = msg.length := by
  simp [ctrEncrypt, ctrKeystream_length hAes]

lemma encryptPacket_eq {aes cmac : List Nat → List Nat → List Nat}
    {fk addr iv plain : List Nat} {sid c : Nat}
    (hp : plain ≠ []) (hs : sid < 256) (hc : c + 1 < 65536) :
    encryptPacket aes cmac fk addr sid c iv plain =
      some (c + 1,
        ctrEncrypt aes (pySlice fk 16 32) ((c + 1 + bytesToNatLE iv) % 2 ^ 128)
          (plain ++ (cmac (pySlice fk 0 16)
            ([2] ++ addr ++ [sid] ++ [1] ++ [(c + 1) % 256, (c + 1) / 256] ++ plain)).take 5)) := by
  unfold encryptPacket
  rw [dataPayloadCore_eq hp hs (by omega) hc]

lemma encryptPacket_overflow {aes cmac : List Nat → List Nat → List Nat}
    {fk addr iv plain : List Nat} {sid c : Nat} (hc : 65536 ≤ c + 1) :
    encryptPacket aes cmac fk addr sid c iv plain = none := by
  unfold encryptPacket
  rw [dataPayloadCore_overflow hc]

end Prov

namespace Prov

lemma emitWithRetries_eq (ctx : SessionCtx) (p : List Nat) (onOk onFail : SState → SState)
    (st : SState) :
    emitWithRetries ctx p onOk onFail st =
      sendLoop ctx p onOk onFail
        { st with sent := st.sent ++ [⟨st.gwId, st.sinkId, p⟩] }
        (ctx.res st.sent.length) := rfl

lemma sendLoop_ok (ctx : SessionCtx) (p : List Nat) (onOk onFail : SState → SState)
    (st : SState) :
    sendLoop ctx p onOk onFail st .ok = onOk st := by
  rw [sendLoop]
  simp

lemma sendLoop_fail_retry {r : GwRes} (ctx : SessionCtx) (p : List Nat)
    (onOk onFail : SState → SState) (st : SState)
    (h : r ≠ .ok) (h2 : st.retry - 1 ≥ 0) :
    sendLoop ctx p onOk onFail st r =
      sendLoop ctx p onOk onFail
        { st with retry := st.retry - 1, sent := st.sent ++ [⟨st.gwId, st.sinkId, p⟩] }
        (ctx.res st.sent.length) := by
  rw [sendLoop, if_neg h, if_pos h2]
  rfl

lemma sendLoop_fail_exhaust {r : GwRes} (ctx : SessionCtx) (p : List Nat)
    (onOk onFail : SState → SState) (st : SState)
    (h : r ≠ .ok) (h2 : ¬ st.retry - 1 ≥ 0) :
    sendLoop ctx p onOk onFail st r = onFail { st with retry := st.retry - 1 } := by
  rw [sendLoop, if_neg h, if_neg h2]

end Prov

namespace Prov

lemma emitWithRetries_fail_step (ctx : SessionCtx) (p : List Nat)
    (onOk onFail : SState → SState) (st : SState)
    (h : ctx.res st.sent.length ≠ .ok) (h2 : st.retry - 1 ≥ 0) :
    emitWithRetries ctx p onOk onFail st =
      emitWithRetries ctx p onOk onFail
        { st with retry := st.retry - 1, sent := st.sent ++ [⟨st.gwId, st.sinkId, p⟩] } := by
  rw [emitWithRetries_eq]
  exact (sendLoop_fail_retry ctx p onOk onFail
    { st with sent := st.sent ++ [⟨st.gwId, st.sinkId, p⟩] } h h2).trans rfl

lemma emitWithRetries_first_ok (ctx : SessionCtx) (p : List Nat)
    (onOk onFail : SState → SState) (st : SState)
    (h : ctx.res st.sent.length = .ok) :
    emitWithRetries ctx p onOk onFail st =
      onOk { st with sent := st.sent ++ [⟨st.gwId, st.sinkId, p⟩] } := by
  rw [emitWithRetries_eq, h, sendLoop_ok]

lemma emitWithRetries_succeeds (ctx : SessionCtx) (p : List Nat)
    (onOk onFail : SState → SState) :
    ∀ (k : Nat) (st : SState), (k : Int) ≤ st.retry →
      (∀ i, i < k → ctx.res (st.sent.length + i) ≠ .ok) →
      ctx.res (st.sent.length + k) = .ok →
      emitWithRetries ctx p onOk onFail st =
        onOk { st with retry := st.retry - k,
                       sent := st.sent ++ List.replicate (k + 1) ⟨st.gwId, st.sinkId, p⟩ } := by
  intro k
  induction k with
  | zero =>
      intro st _ _ hok
      rw [emitWithRetries_first_ok _ _ _ _ _ (by simpa using hok)]
      simp
  | succ k ih =>
      intro st hk hfail hok
      have h0 : ctx.res st.sent.length ≠ .ok := by simpa using hfail 0 (Nat.succ_pos k)
      have hk' : (k + 1 : Int) ≤ st.retry := by exact_mod_cast hk
      rw [emitWithRetries_fail_step _ _ _ _ _ h0 (by omega)]
      rw [ih _ (by simp; omega) ?hfail ?hok]
      case hfail =>
        intro i hi
        have := hfail (i + 1) (by omega)
        simpa [Nat.add_assoc, Nat.add_comm 1 i] using this
      case hok =>
        have : st.sent.length + 1 + k = st.sent.length + (k + 1) := by omega
        simpa [this] using hok
      congr 1
      simp [SState.mk.injEq, List.replicate_succ, List.append_assoc]
      omega

end Prov

namespace Prov

lemma emitWithRetries_exhausts (ctx : SessionCtx) (p : List Nat)
    (onOk onFail : SState → SState) :
    ∀ (n : Nat) (st : SState), st.retry = (n : Int) →
      (∀ i, i ≤ n → ctx.res (st.sent.length + i) ≠ .ok) →
      emitWithRetries ctx p onOk onFail st =
        onFail { st with retry := -1,
                         sent := st.sent ++ List.replicate (n + 1) ⟨st.gwId, st.sinkId, p⟩ } := by
  intro n
  induction n with
  | zero =>
      intro st hr hfail
      have h0 : ctx.res st.sent.length ≠ .ok := by simpa using hfail 0 (Nat.le_refl 0)
      rw [emitWithRetries_eq]
      rw [sendLoop_fail_exhaust _ _ _ _ _ h0 (by simp; omega)]
      congr 1
      simp [SState.mk.injEq, hr]
  | succ n ih =>
      intro st hr hfail
      have h0 : ctx.res st.sent.length ≠ .ok := by simpa using hfail 0 (Nat.zero_le _)
      rw [emitWithRetries_fail_step _ _ _ _ _ h0 (by omega)]
      rw [ih _ (by simp [hr]) ?hfail]
      case hfail =>
        intro i hi
        have := hfail (i + 1) (by omega)
        simpa [Nat.add_assoc, Nat.add_comm 1 i] using this
      congr 1
      simp [SState.mk.injEq, List.replicate_succ, List.append_assoc]

end Prov

namespace Prov

lemma runEvents_terminal (ctx : SessionCtx) (s : SState) (h : s.status ≠ PStatus.ongoing)
    (evs : List PEvent) : runEvents ctx s evs = some (s, evs) := by
  cases evs <;> simp [runEvents, h]

lemma updateOrigin_fields (st : SState) (env : Envelope) :
    (updateOrigin st env).nodeAddr = st.nodeAddr ∧
    (updateOrigin st env).sid = st.sid ∧
    (updateOrigin st env).counter = st.counter ∧
    (updateOrigin st env).state = st.state ∧
    (updateOrigin st env).status = st.status ∧
    (updateOrigin st env).retry = st.retry ∧
    (updateOrigin st env).timer = st.timer ∧
    (updateOrigin st env).timerArms = st.timerArms ∧
    (updateOrigin st env).sent = st.sent := by
  unfold updateOrigin
  rcases env.txTime with _ | t
  · simp
  · dsimp only
    split_ifs <;> simp

lemma processStart_unknown {ctx : SessionCtx} {st : SState} {m : StartFields}
    (h : ctx.lookup m.uid = none) :
    processStart ctx st m = nackBranch ctx st 0 := by
  unfold processStart
  rw [h]

lemma processStart_mismatch {ctx : SessionCtx} {st : SState} {m : StartFields}
    {node : NodeCfg} (h : ctx.lookup m.uid = some node) (hm : node.method ≠ m.method) :
    processStart ctx st m = nackBranch ctx st 1 := by
  unfold processStart
  rw [h]
  simp [hm]

lemma nackBranch_eq {ctx : SessionCtx} {st : SState} {reason : Nat}
    (hr : reason = 0 ∨ reason = 1 ∨ reason = 2 ∨ reason = 3) (hs : st.sid < 256) :
    nackBranch ctx st reason =
      some (emitWithRetries ctx ([4] ++ st.nodeAddr ++ [st.sid] ++ [reason])
        onOkNack onFailNack { st with status := PStatus.errorNotAuthorized }) := by
  unfold nackBranch
  rw [nackPayloadCore_eq hr hs]

end Prov

namespace Prov

lemma processStart_secured {ctx : SessionCtx} {st : SState} {m : StartFields} {node : NodeCfg}
    (h : ctx.lookup m.uid = some node) (hm : node.method = m.method) (hm0 : m.method ≠ 0)
    (hs : st.sid < 256) (hc : st.counter + 1 < 65536) (hcb : ctx.cbor m.uid ≠ [])
    (hAes : ∀ k b, (ctx.aes k b).length = 16) :
    processStart ctx st m =
      some (emitWithRetries ctx
        ([2] ++ st.nodeAddr ++ [st.sid] ++ [1] ++
          [(st.counter + 1) % 256, (st.counter + 1) / 256] ++
          ctrEncrypt ctx.aes (pySlice node.factoryKey 16 32)
            ((st.counter + 1 + bytesToNatLE m.iv) % 2 ^ 128)
            (ctx.cbor m.uid ++ (ctx.cmac (pySlice node.factoryKey 0 16)
              ([2] ++ st.nodeAddr ++ [st.sid] ++ [1] ++
                [(st.counter + 1) % 256, (st.counter + 1) / 256] ++ ctx.cbor m.uid)).take 5))
        onOkData onFailData { st with counter := st.counter + 1 }) := by
  have hct : (ctrEncrypt ctx.aes (pySlice node.factoryKey 16 32)
      ((st.counter + 1 + bytesToNatLE m.iv) % 2 ^ 128)
      (ctx.cbor m.uid ++ (ctx.cmac (pySlice node.factoryKey 0 16)
        ([2] ++ st.nodeAddr ++ [st.sid] ++ [1] ++
          [(st.counter + 1) % 256, (st.counter + 1) / 256] ++ ctx.cbor m.uid)).take 5)) ≠ [] := by
    intro hnil
    have := @ctrEncrypt_length ctx.aes (pySlice node.factoryKey 16 32) hAes
      ((st.counter + 1 + bytesToNatLE m.iv) % 2 ^ 128)
      (ctx.cbor m.uid ++ (ctx.cmac (pySlice node.factoryKey 0 16)
        ([2] ++ st.nodeAddr ++ [st.sid] ++ [1] ++
          [(st.counter + 1) % 256, (st.counter + 1) / 256] ++ ctx.cbor m.uid)).take 5)
    rw [hnil] at this
    simp at this
    have hlen : (ctx.cbor m.uid).length > 0 := List.length_pos.mpr hcb
    omega
  unfold processStart
  rw [h]
  dsimp only
  rw [if_pos hm, if_neg hm0, encryptPacket_eq hcb hs hc]
  simp only [Option.map_some']
  rw [dataPayloadCore_eq hct hs (by omega) hc]

end Prov

namespace Prov

/-- C1: codec round-trip.  The claim fails for DATA frames: the decoder's
slices (`data = p[9:-6]`, `mic = p[:-5]`) do not invert the encoder, so
decoding any encoded DATA frame raises the invalid-message error.  Here
the validly shaped DATA frame (node_address [1,2,3,4], session_id 5,
key_index 1, counter 6, data [7], no MIC) encodes to
[2,1,2,3,4,5,1,6,0,7], and `ProvisioningMessageFactory.map` on those
bytes raises instead of returning the frame. -/
theorem dataRoundTripFails :
    dataFramePayload ⟨[1, 2, 3, 4], 5, 1, 6, [7], []⟩ = some [2, 1, 2, 3, 4, 5, 1, 6, 0, 7] ∧
    factoryMap [2, 1, 2, 3, 4, 5, 1, 6, 0, 7] = .error .invalidMessage := by
  constructor
  · rfl
  · decide

/-- C2 counterexample: 65535 is a 16-bit counter value, yet with a
32-byte factory key, 16-byte IV and non-empty plaintext
`_encrypt_packet` raises `OverflowError` while serializing the
post-increment counter into the DATA header to be authenticated, so no
ciphertext of the claimed form is returned. -/
theorem encryptPacketOverflowCounterexample :
    65535 < 2 ^ 16 ∧ (List.range 32).length = 32 ∧
    (List.replicate 16 1).length = 16 ∧ ([3] : List Nat) ≠ [] ∧
    encryptPacket (fun _ b => b) (fun _ b => b) (List.range 32) [9, 9, 9, 9] 7 65535
      (List.replicate 16 1) [3] = none := by
  refine ⟨by norm_num, by decide, by decide, by decide, ?_⟩
  exact encryptPacket_overflow (by norm_num)

/-- C2 amended: the protected DATA payload construction, restricted to
counters whose post-increment value still fits 16 bits.  There
`_encrypt_packet` with a 32-byte factory key, 16-byte IV and non-empty
plaintext computes the MIC as the first 5 bytes of the CMAC tag keyed
with `factory_key[0:16]` over the 9-byte DATA header (key_index 1,
post-increment counter, no MIC) concatenated with the plaintext, forms
`ICB = (counter + LE-u128(IV)) mod 2^128`, and returns
AES-128-CTR (`factory_key[16:32]`, little-endian counter with
wraparound) applied to `plaintext ‖ mic`; once the post-increment
counter reaches 2^16 the header build raises `OverflowError` and no
ciphertext is produced. -/
theorem encryptPacketConstruction (aes cmac : List Nat → List Nat → List Nat)
    (fk addr iv plain : List Nat) (sid c : Nat)
    (hfk : fk.length = 32) (hiv : iv.length = 16) (hp : plain ≠ [])
    (hs : sid < 256) :
    (c + 1 < 2 ^ 16 →
      encryptPacket aes cmac fk addr sid c iv plain =
        some (c + 1,
          ctrEncrypt aes (pySlice fk 16 32) ((c + 1 + bytesToNatLE iv) % 2 ^ 128)
            (plain ++ (cmac (pySlice fk 0 16)
              ([2] ++ addr ++ [sid] ++ [1] ++
                [(c + 1) % 256, (c + 1) / 256] ++ plain)).take 5))) ∧
    (2 ^ 16 ≤ c + 1 → encryptPacket aes cmac fk addr sid c iv plain = none) := by
  constructor
  · intro hc
    exact encryptPacket_eq hp hs (by norm_num at hc; omega)
  · intro hc
    exact encryptPacket_overflow (by norm_num at hc; omega)

/-- C2 witness: both regimes at a concrete key, IV and plaintext, with
the counter-range hypotheses discharged at counters 7 and 65535. -/
theorem encryptPacketConstructionWitness :
    (List.range 32).length = 32 ∧ (List.replicate 16 0).length = 16 ∧
    ([42] : List Nat) ≠ [] ∧ (5 : Nat) < 256 ∧
    encryptPacket (fun _ b => b) (fun _ b => b) (List.range 32) [1, 2, 3, 4] 5 7
      (List.replicate 16 0) [42] =
      some (8,
        ctrEncrypt (fun _ b => b) (pySlice (List.range 32) 16 32)
          ((8 + bytesToNatLE (List.replicate 16 0)) % 2 ^ 128)
          ([42] ++ ((fun (_ b : List Nat) => b) (pySlice (List.range 32) 0 16)
            ([2] ++ [1, 2, 3, 4] ++ [5] ++ [1] ++ [8 % 256, 8 / 256] ++ [42])).take 5)) ∧
    encryptPacket (fun _ b => b) (fun _ b => b) (List.range 32) [1, 2, 3, 4] 5 65535
      (List.replicate 16 0) [42] = none :=
  ⟨by decide, by decide, by decide, by decide,
    (encryptPacketConstruction (fun _ b => b) (fun _ b => b) (List.range 32) [1, 2, 3, 4]
      (List.replicate 16 0) [42] 5 7 (by decide) (by decide) (by decide) (by decide)).1
      (by norm_num),
    (encryptPacketConstruction (fun _ b => b) (fun _ b => b) (List.range 32) [1, 2, 3, 4]
      (List.replicate 16 0) [42] 5 65535 (by decide) (by decide) (by decide) (by decide)).2
      (by norm_num)⟩

/-- C9 counterexample: the counter does not wrap modulo 2^16 and its
serialization does not always succeed.  65535 is a valid 16-bit seed
(a possible `random.getrandbits(16)` draw); the first encryption from it
post-increments the counter to 65536 = 2^16, whose 2-byte serialization
inside the DATA header raises `OverflowError`, so `_encrypt_packet`
fails instead of wrapping to 0. -/
theorem counterNoWrapCounterexample :
    65535 < 2 ^ 16 ∧
    intToBytes2LE ((65536 : Nat) : Int) = none ∧
    encryptPacket (fun _ b => b) (fun _ b => b) (List.range 32) [1, 2, 3, 4] 5 65535
      (List.replicate 16 0) [42] = none := by
  refine ⟨by norm_num, by decide, ?_⟩
  exact encryptPacket_overflow (by norm_num)

/-- C9 amended: the session counter is an unbounded integer seeded below
2^16; each encryption adds exactly 1 with no modular reduction, and the
2-byte little-endian serialization of the DATA-header counter succeeds
exactly while the value stays below 2^16 — once the post-increment value
reaches 2^16 the encryption raises instead of wrapping. -/
theorem counterSixteenBit (aes cmac : List Nat → List Nat → List Nat)
    (fk addr iv plain : List Nat) (sid c : Nat)
    (hs : sid < 256) (hp : plain ≠ []) :
    (c + 1 < 2 ^ 16 →
      intToBytes2LE ((c + 1 : Nat) : Int) = some [(c + 1) % 256, (c + 1) / 256] ∧
      ∃ ct, encryptPacket aes cmac fk addr sid c iv plain = some (c + 1, ct)) ∧
    (2 ^ 16 ≤ c + 1 →
      intToBytes2LE ((c + 1 : Nat) : Int) = none ∧
      encryptPacket aes cmac fk addr sid c iv plain = none) := by
  constructor
  · intro h
    have h' : c + 1 < 65536 := by norm_num at h; omega
    exact ⟨intToBytes2LE_natCast h', ⟨_, encryptPacket_eq hp hs h'⟩⟩
  · intro h
    have h' : 65536 ≤ c + 1 := by norm_num at h; omega
    exact ⟨intToBytes2LE_overflow h', encryptPacket_overflow h'⟩

/-- C9 witness: both regimes at concrete counters 7 and 65535. -/
theorem counterSixteenBitWitness :
    (5 : Nat) < 256 ∧ ([42] : List Nat) ≠ [] ∧
    (7 + 1 < 2 ^ 16 →
      intToBytes2LE ((7 + 1 : Nat) : Int) = some [(7 + 1) % 256, (7 + 1) / 256] ∧
      ∃ ct, encryptPacket (fun _ b => b) (fun _ b => b) (List.range 32) [1, 2, 3, 4] 5 7
        (List.replicate 16 0) [42] = some (7 + 1, ct)) ∧
    (2 ^ 16 ≤ 65535 + 1 →
      intToBytes2LE ((65535 + 1 : Nat) : Int) = none ∧
      encryptPacket (fun _ b => b) (fun _ b => b) (List.range 32) [1, 2, 3, 4] 5 65535
        (List.replicate 16 0) [42] = none) :=
  ⟨by decide, by decide,
    (counterSixteenBit (fun _ b => b) (fun _ b => b) (List.range 32) [1, 2, 3, 4]
      (List.replicate 16 0) [42] 5 7 (by decide) (by decide)).1,
    (counterSixteenBit (fun _ b => b) (fun _ b => b) (List.range 32) [1, 2, 3, 4]
      (List.replicate 16 0) [42] 5 65535 (by decide) (by decide)).2⟩

end Prov

namespace Prov

/-- The decode-failure condition exactly as claim C4 words it, in terms
of the material the decoder extracts from the raw payload: an unknown
first byte; for START a wrong-length IV (`p[7:23]`), an empty UID
(`p[23:]`) or a method byte (`p[6]`) outside {0,1,3}; for DATA an empty
data slice (`p[9:-6]`) or a MIC slice (`p[:-5]`) of length neither 0 nor
5; for NACK a reason byte (`p[6]`) outside {0,1,2,3}. -/
def c4FailCond (p : List Nat) : Prop :=
  (p.headD 0 ≠ 1 ∧ p.headD 0 ≠ 2 ∧ p.headD 0 ≠ 3 ∧ p.headD 0 ≠ 4)
  ∨ (p.headD 0 = 1 ∧
      ((pySlice p 7 23).length ≠ 16 ∨ (p.drop 23).length = 0 ∨
        ¬(p.getD 6 0 = 0 ∨ p.getD 6 0 = 1 ∨ p.getD 6 0 = 3)))
  ∨ (p.headD 0 = 2 ∧
      ((pySliceNeg p 9 6).length = 0 ∨
        ¬((p.take (p.length - 5)).length = 0 ∨ (p.take (p.length - 5)).length = 5)))
  ∨ (p.headD 0 = 4 ∧
      ¬(p.getD 6 0 = 0 ∨ p.getD 6 0 = 1 ∨ p.getD 6 0 = 2 ∨ p.getD 6 0 = 3))

instance c4FailCondDecidable (p : List Nat) : Decidable (c4FailCond p) := by
  unfold c4FailCond
  infer_instance

/-- C4 counterexample: the 6-byte payload [1,0,0,0,0,0] has first byte
START and an IV slice of length 0 ≠ 16, so the claim says decoding
raises the invalid-message error; the code instead hits an uncaught
`IndexError` reading the method byte at index 6 (`map` catches only
`KeyError`, `TypeError`, `ValueError`), so no invalid-message error is
raised. -/
theorem decodeShortStartCounterexample :
    c4FailCond [1, 0, 0, 0, 0, 0] ∧
    factoryMap [1, 0, 0, 0, 0, 0] = .error .indexError ∧
    factoryMap [1, 0, 0, 0, 0, 0] ≠ .error .invalidMessage := by
  decide

/-- C4 amended: for payloads long enough that every indexed byte exists
(7 bytes for START/DATA/NACK, 6 for DATA_ACK, nonempty overall),
`ProvisioningMessageFactory.map` raises the invalid-message error
exactly under the claim's conditions; shorter payloads raise IndexError
instead.  On error no frame is produced (the `Except` is not `.ok`). -/
theorem decodeInvalidIff (p : List Nat) (h1 : p ≠ [])
    (h2 : p.headD 0 = 1 ∨ p.headD 0 = 2 ∨ p.headD 0 = 4 → 7 ≤ p.length)
    (h3 : p.headD 0 = 3 → 6 ≤ p.length) :
    (factoryMap p = .error .invalidMessage ↔ c4FailCond p) := by
  have hp0 : p[0]? = some (p.headD 0) := by
    cases p
    · simp at h1
    · simp
  unfold factoryMap
  rw [hp0]
  dsimp only
  by_cases e1 : p.headD 0 = 1
  · have hlen : 7 ≤ p.length := h2 (Or.inl e1)
    have h6 : p[6]? = some (p.getD 6 0) := by
      rw [List.getElem?_eq_getElem (by omega), List.getD_eq_getElem _ _ (by omega)]
    have h5 : p[5]? = some (p.getD 5 0) := by
      rw [List.getElem?_eq_getElem (by omega), List.getD_eq_getElem _ _ (by omega)]
    rw [if_pos e1]
    unfold decodeStart
    rw [h6, h5]
    dsimp only
    split_ifs with em hiv huid
    · apply iff_of_false
      · intro hbad
        exact Except.noConfusion hbad
      · rintro (⟨hne, -⟩ | ⟨-, hbad | hbad | hbad⟩ | ⟨he2, -⟩ | ⟨he4, -⟩)
        · exact hne e1
        · exact hbad hiv
        · rw [List.length_drop] at hbad huid
          omega
        · exact hbad em
        · omega
        · omega
    · apply iff_of_true rfl
      exact Or.inr (Or.inl ⟨e1, Or.inr (Or.inl (by rw [List.length_drop] at huid ⊢; omega))⟩)
    · apply iff_of_true rfl
      exact Or.inr (Or.inl ⟨e1, Or.inl hiv⟩)
    · apply iff_of_true rfl
      exact Or.inr (Or.inl ⟨e1, Or.inr (Or.inr em)⟩)
  · by_cases e2 : p.headD 0 = 2
    · have hlen : 7 ≤ p.length := h2 (Or.inr (Or.inl e2))
      have h6 : p[6]? = some (p.getD 6 0) := by
        rw [List.getElem?_eq_getElem (by omega), List.getD_eq_getElem _ _ (by omega)]
      have h5 : p[5]? = some (p.getD 5 0) := by
        rw [List.getElem?_eq_getElem (by omega), List.getD_eq_getElem _ _ (by omega)]
      rw [if_neg e1, if_pos e2]
      unfold decodeData
      rw [h5, h6]
      dsimp only
      split_ifs with hd hm
      · apply iff_of_false
        · intro hbad
          exact Except.noConfusion hbad
        · rintro (⟨-, hne, -⟩ | ⟨he1, -⟩ | ⟨-, hbad | hbad⟩ | ⟨he4, -⟩)
          · exact hne e2
          · exact e1 he1
          · omega
          · exact hbad hm
          · omega
      · apply iff_of_true rfl
        exact Or.inr (Or.inr (Or.inl ⟨e2, Or.inr hm⟩))
      · apply iff_of_true rfl
        exact Or.inr (Or.inr (Or.inl ⟨e2, Or.inl (by omega)⟩))
    · by_cases e3 : p.headD 0 = 3
      · have hlen : 6 ≤ p.length := h3 e3
        have h5 : p[5]? = some (p.getD 5 0) := by
          rw [List.getElem?_eq_getElem (by omega), List.getD_eq_getElem _ _ (by omega)]
        rw [if_neg e1, if_neg e2, if_pos e3]
        unfold decodeAck
        rw [h5]
        apply iff_of_false
        · intro hbad
          exact Except.noConfusion hbad
        · rintro (⟨-, -, hne, -⟩ | ⟨he1, -⟩ | ⟨he2, -⟩ | ⟨he4, -⟩)
          · exact hne e3
          · exact e1 he1
          · exact e2 he2
          · omega
      · by_cases e4 : p.headD 0 = 4
        · have hlen : 7 ≤ p.length := h2 (Or.inr (Or.inr e4))
          have h6 : p[6]? = some (p.getD 6 0) := by
            rw [List.getElem?_eq_getElem (by omega), List.getD_eq_getElem _ _ (by omega)]
          have h5 : p[5]? = some (p.getD 5 0) := by
            rw [List.getElem?_eq_getElem (by omega), List.getD_eq_getElem _ _ (by omega)]
          rw [if_neg e1, if_neg e2, if_neg e3, if_pos e4]
          unfold decodeNack
          rw [h6, h5]
          dsimp only
          split_ifs with hr
          · apply iff_of_false
            · intro hbad
              exact Except.noConfusion hbad
            · rintro (⟨-, -, -, hne⟩ | ⟨he1, -⟩ | ⟨he2, -⟩ | ⟨-, hbad⟩)
              · exact hne e4
              · exact e1 he1
              · exact e2 he2
              · exact hbad hr
          · apply iff_of_true rfl
            exact Or.inr (Or.inr (Or.inr ⟨e4, hr⟩))
        · rw [if_neg e1, if_neg e2, if_neg e3, if_neg e4]
          apply iff_of_true rfl
          exact Or.inl ⟨e1, e2, e3, e4⟩

/-- C4 witness: the amended equivalence at the 7-byte NACK payload
[4,0,0,0,0,0,9] with an out-of-range reason byte. -/
theorem decodeInvalidIffWitness :
    ([4, 0, 0, 0, 0, 0, 9] : List Nat) ≠ [] ∧
    (factoryMap [4, 0, 0, 0, 0, 0, 9] = .error .invalidMessage ↔
      c4FailCond [4, 0, 0, 0, 0, 0, 9]) :=
  ⟨by decide,
    decodeInvalidIff [4, 0, 0, 0, 0, 0, 9] (by decide) (fun _ => by decide)
      (fun h => by simp at h)⟩

end Prov

namespace Prov

/-- C8: origin update rule. -/
theorem originUpdateRule (st : SState) (env : Envelope) (h : 0 ≤ st.txTime) :
    (∀ t, env.txTime = some t → st.txTime < t →
      updateOrigin st env = { st with gwId := env.gwId, sinkId := env.sinkId, txTime := t }) ∧
    ((∀ t, env.txTime = some t → t ≤ st.txTime) → updateOrigin st env = st) ∧
    (∀ ctx p, (sendAttempt ctx (updateOrigin st env) p).1.sent =
      (updateOrigin st env).sent ++
        [⟨(updateOrigin st env).gwId, (updateOrigin st env).sinkId, p⟩]) := by
  refine ⟨?_, ?_, ?_⟩
  · intro t ht hlt
    unfold updateOrigin
    rw [ht]
    dsimp only
    rw [if_pos ⟨by omega, hlt⟩]
  · intro hle
    unfold updateOrigin
    cases henv : env.txTime with
    | none => rfl
    | some t =>
      dsimp only
      rw [if_neg]
      rintro ⟨-, hlt⟩
      exact absurd (hle t henv) (by omega)
  · intro ctx p
    rfl

/-- C10: a DATA frame received in WAIT_RESPONSE is silently ignored. -/
theorem dataFrameIgnoredInWaitResponse (ctx : SessionCtx) (st : SState) (w : DataFields)
    (env : Envelope) (hst : st.state = .waitResponse) (hon : st.status = .ongoing) :
    step ctx st (.packetReceived (.data w env)) = some (updateOrigin st env) ∧
    (updateOrigin st env).state = .waitResponse ∧
    (updateOrigin st env).status = .ongoing ∧
    (updateOrigin st env).sent = st.sent ∧
    (updateOrigin st env).timer = st.timer ∧
    (updateOrigin st env).timerArms = st.timerArms := by
  obtain ⟨-, -, -, hstate, hstatus, -, htimer, harms, hsent⟩ := updateOrigin_fields st env
  refine ⟨?_, ?_, ?_, hsent, htimer, harms⟩
  · unfold step
    rw [hst]
    rfl
  · rw [hstate, hst]
  · rw [hstatus, hon]

end Prov

namespace Prov

/-- C7: WAIT_RESPONSE terminal transitions. -/
theorem waitResponseTerminal (ctx : SessionCtx) (st : SState)
    (hst : st.state = .waitResponse) :
    (∀ w env, ∃ st1, step ctx st (.packetReceived (.dataAck w env)) = some st1 ∧
      st1.status = .success ∧ st1.timer = false ∧
      ∀ evs, runEvents ctx st1 evs = some (st1, evs)) ∧
    (∀ w env, ∃ st1, step ctx st (.packetReceived (.nack w env)) = some st1 ∧
      st1.status = .errorNackReceived ∧ st1.timer = false ∧
      ∀ evs, runEvents ctx st1 evs = some (st1, evs)) ∧
    (∃ st1, step ctx st .timeout = some st1 ∧
      st1.status = .errorNoResponse ∧ st1.timer = false ∧
      ∀ evs, runEvents ctx st1 evs = some (st1, evs)) := by
  refine ⟨?_, ?_, ?_⟩
  · intro w env
    refine ⟨{ (timerCancel (updateOrigin st env)) with status := PStatus.success },
      ?_, rfl, rfl, fun evs => runEvents_terminal ctx _ (fun h => PStatus.noConfusion h) evs⟩
    unfold step
    rw [hst]
    rfl
  · intro w env
    refine ⟨{ (timerCancel (updateOrigin st env)) with status := PStatus.errorNackReceived },
      ?_, rfl, rfl, fun evs => runEvents_terminal ctx _ (fun h => PStatus.noConfusion h) evs⟩
    unfold step
    rw [hst]
    rfl
  · refine ⟨{ (timerCancel st) with status := PStatus.errorNoResponse },
      ?_, rfl, rfl, fun evs => runEvents_terminal ctx _ (fun h => PStatus.noConfusion h) evs⟩
    unfold step
    rw [hst]
    rfl

end Prov

namespace Prov

/-- C5: NACK dispatch in IDLE. -/
theorem nackDispatchInIdle (ctx : SessionCtx) (st : SState) (m : StartFields) (env : Envelope)
    (hs : st.sid < 256) (hok : ctx.res st.sent.length = .ok) :
    (ctx.lookup m.uid = none →
      ∃ st1, stateIdle ctx st (.packetReceived (.start m env)) = some st1 ∧
        st1.sent = st.sent ++ [⟨(updateOrigin st env).gwId, (updateOrigin st env).sinkId,
          [4] ++ st.nodeAddr ++ [st.sid] ++ [0]⟩] ∧
        st1.status = .errorNotAuthorized) ∧
    (∀ node, ctx.lookup m.uid = some node → node.method ≠ m.method →
      ∃ st1, stateIdle ctx st (.packetReceived (.start m env)) = some st1 ∧
        st1.sent = st.sent ++ [⟨(updateOrigin st env).gwId, (updateOrigin st env).sinkId,
          [4] ++ st.nodeAddr ++ [st.sid] ++ [1]⟩] ∧
        st1.status = .errorNotAuthorized) := by
  obtain ⟨hna, hsid, -, -, -, -, -, -, hsent⟩ := updateOrigin_fields st env
  have hidle : stateIdle ctx st (.packetReceived (.start m env)) =
      processStart ctx (updateOrigin st env) m := rfl
  have hok' : ctx.res ((updateOrigin st env).sent).length = .ok := by
    rw [hsent]; exact hok
  constructor
  · intro hnone
    refine ⟨onOkNack
        { (updateOrigin st env) with
          status := PStatus.errorNotAuthorized,
          sent := (updateOrigin st env).sent ++
            [⟨(updateOrigin st env).gwId, (updateOrigin st env).sinkId,
              [4] ++ (updateOrigin st env).nodeAddr ++ [(updateOrigin st env).sid] ++ [0]⟩] },
      ?_, ?_, ?_⟩
    · rw [hidle, processStart_unknown hnone,
        nackBranch_eq (Or.inl rfl) (by rw [hsid]; exact hs),
        emitWithRetries_first_ok ctx _ onOkNack onFailNack
          { updateOrigin st env with status := PStatus.errorNotAuthorized } hok']
    · show (updateOrigin st env).sent ++
        [⟨(updateOrigin st env).gwId, (updateOrigin st env).sinkId,
          [4] ++ (updateOrigin st env).nodeAddr ++ [(updateOrigin st env).sid] ++ [0]⟩] = _
      rw [hsent, hna, hsid]
    · rfl
  · intro node hsome hmm
    refine ⟨onOkNack
        { (updateOrigin st env) with
          status := PStatus.errorNotAuthorized,
          sent := (updateOrigin st env).sent ++
            [⟨(updateOrigin st env).gwId, (updateOrigin st env).sinkId,
              [4] ++ (updateOrigin st env).nodeAddr ++ [(updateOrigin st env).sid] ++ [1]⟩] },
      ?_, ?_, ?_⟩
    · rw [hidle, processStart_mismatch hsome hmm,
        nackBranch_eq (Or.inr (Or.inl rfl)) (by rw [hsid]; exact hs),
        emitWithRetries_first_ok ctx _ onOkNack onFailNack
          { updateOrigin st env with status := PStatus.errorNotAuthorized } hok']
    · show (updateOrigin st env).sent ++
        [⟨(updateOrigin st env).gwId, (updateOrigin st env).sinkId,
          [4] ++ (updateOrigin st env).nodeAddr ++ [(updateOrigin st env).sid] ++ [1]⟩] = _
      rw [hsent, hna, hsid]
    · rfl

end Prov

namespace Prov

lemma processStart_secured_exists {ctx : SessionCtx} {st : SState} {m : StartFields}
    {node : NodeCfg}
    (h : ctx.lookup m.uid = some node) (hm : node.method = m.method) (hm0 : m.method ≠ 0)
    (hs : st.sid < 256) (hc : st.counter + 1 < 65536) (hcb : ctx.cbor m.uid ≠ [])
    (hAes : ∀ k b, (ctx.aes k b).length = 16) :
    ∃ cb, processStart ctx st m =
      some (emitWithRetries ctx
        ([2] ++ st.nodeAddr ++ [st.sid] ++ [1] ++
          [(st.counter + 1) % 256, (st.counter + 1) / 256] ++ cb)
        onOkData onFailData { st with counter := st.counter + 1 }) :=
  ⟨_, processStart_secured h hm hm0 hs hc hcb hAes⟩

lemma processStart_overflow {ctx : SessionCtx} {st : SState} {m : StartFields}
    {node : NodeCfg}
    (h : ctx.lookup m.uid = some node) (hm : node.method = m.method) (hm0 : m.method ≠ 0)
    (hc : 65536 ≤ st.counter + 1) :
    processStart ctx st m = none := by
  unfold processStart
  rw [h]
  dsimp only
  rw [if_pos hm, if_neg hm0, encryptPacket_overflow hc]
  rfl

/-- C3 amended: while the post-increment counter still fits 16 bits (and
the transport accepts the send), every encryption call increments the
session counter by exactly 1, the counter field written into the
outgoing DATA header equals the post-increment value, and a duplicate
START received in WAIT_RESPONSE triggers a fresh DATA emission whose
counter is incremented again with the timer restarted; at counter
2^16 − 1 the encryption instead raises `OverflowError`, so no DATA is
emitted and the timer is not restarted (the handler produces no
state). -/
theorem counterIncrement (ctx : SessionCtx) (st : SState) (m : StartFields) (node : NodeCfg)
    (env : Envelope)
    (hl : ctx.lookup m.uid = some node) (hm : node.method = m.method) (hm0 : m.method ≠ 0)
    (hs : st.sid < 256) (hcb : ctx.cbor m.uid ≠ [])
    (hAes : ∀ k b, (ctx.aes k b).length = 16)
    (hok : ctx.res st.sent.length = .ok) :
    (st.counter + 1 < 2 ^ 16 →
      (∃ st1, processStart ctx st m = some st1 ∧
        st1.counter = st.counter + 1 ∧ st1.state = .waitResponse ∧ st1.timer = true ∧
        ∃ rest, st1.sent = st.sent ++ [⟨st.gwId, st.sinkId,
          [2] ++ st.nodeAddr ++ [st.sid] ++ [1] ++
            [(st.counter + 1) % 256, (st.counter + 1) / 256] ++ rest⟩]) ∧
      (∃ st2, stateWaitResponse ctx st (.packetReceived (.start m env)) = some st2 ∧
        st2.counter = st.counter + 1 ∧ st2.timer = true ∧
        st2.timerArms = st.timerArms + 2 ∧
        ∃ gw sink rest, st2.sent = st.sent ++ [⟨gw, sink,
          [2] ++ st.nodeAddr ++ [st.sid] ++ [1] ++
            [(st.counter + 1) % 256, (st.counter + 1) / 256] ++ rest⟩])) ∧
    (2 ^ 16 ≤ st.counter + 1 →
      processStart ctx st m = none ∧
      stateWaitResponse ctx st (.packetReceived (.start m env)) = none) := by
  obtain ⟨hna, hsid, hcounter, -, -, -, -, harms, hsent⟩ := updateOrigin_fields st env
  constructor
  · intro hc
    have hc' : st.counter + 1 < 65536 := by norm_num at hc; exact hc
    constructor
    · obtain ⟨cb, hps⟩ := processStart_secured_exists hl hm hm0 hs hc' hcb hAes
      rw [hps, emitWithRetries_first_ok ctx _ onOkData onFailData
        { st with counter := st.counter + 1 } hok]
      exact ⟨_, rfl, rfl, rfl, rfl, cb, rfl⟩
    · have hWR : stateWaitResponse ctx st (.packetReceived (.start m env)) =
          (processStart ctx (updateOrigin st env) m).map timerStart := rfl
      have hsU : (updateOrigin st env).sid < 256 := by rw [hsid]; exact hs
      have hcU : (updateOrigin st env).counter + 1 < 65536 := by rw [hcounter]; exact hc'
      have hokU : ctx.res ((updateOrigin st env).sent).length = .ok := by
        rw [hsent]; exact hok
      obtain ⟨cb2, hps2⟩ := processStart_secured_exists hl hm hm0 hsU hcU hcb hAes
      rw [hWR, hps2]
      simp only [Option.map_some']
      rw [emitWithRetries_first_ok ctx _ onOkData onFailData
        { (updateOrigin st env) with counter := (updateOrigin st env).counter + 1 } hokU]
      refine ⟨_, rfl, ?_, rfl, ?_, (updateOrigin st env).gwId, (updateOrigin st env).sinkId,
        cb2, ?_⟩
      · rw [← hcounter]
        rfl
      · rw [← harms]
        rfl
      · rw [← hsent, ← hna, ← hsid, ← hcounter]
        rfl
  · intro hc
    have hc' : 65536 ≤ st.counter + 1 := by norm_num at hc; exact hc
    have hcU : 65536 ≤ (updateOrigin st env).counter + 1 := by rw [hcounter]; exact hc'
    refine ⟨processStart_overflow hl hm hm0 hc', ?_⟩
    have hWR : stateWaitResponse ctx st (.packetReceived (.start m env)) =
        (processStart ctx (updateOrigin st env) m).map timerStart := rfl
    rw [hWR, processStart_overflow hl hm hm0 hcU]
    rfl

end Prov

namespace Prov

/-- C6: send retry protocol. -/
theorem sendRetryProtocol (ctx : SessionCtx) (p : List Nat)
    (onOk onFail : SState → SState) (st : SState) :
    (∀ k : Nat, (k : Int) ≤ st.retry →
      (∀ i, i < k → ctx.res (st.sent.length + i) ≠ .ok) →
      ctx.res (st.sent.length + k) = .ok →
      emitWithRetries ctx p onOk onFail st =
        onOk { st with retry := st.retry - k,
                       sent := st.sent ++ List.replicate (k + 1) ⟨st.gwId, st.sinkId, p⟩ }) ∧
    (∀ n : Nat, st.retry = (n : Int) →
      (∀ i, i ≤ n → ctx.res (st.sent.length + i) ≠ .ok) →
      emitWithRetries ctx p onOk onFail st =
        onFail { st with retry := -1,
                         sent := st.sent ++ List.replicate (n + 1) ⟨st.gwId, st.sinkId, p⟩ }) ∧
    (∀ m : StartFields, ctx.lookup m.uid = none → st.sid < 256 →
      ∀ n : Nat, st.retry = (n : Int) →
      (∀ i, i ≤ n → ctx.res (st.sent.length + i) ≠ .ok) →
      ∃ st1, processStart ctx st m = some st1 ∧
        st1.retry = -1 ∧ st1.status = .errorSendingNack ∧
        st1.sent.length = st.sent.length + (n + 1)) := by
  refine ⟨fun k => emitWithRetries_succeeds ctx p onOk onFail k st,
    fun n => emitWithRetries_exhausts ctx p onOk onFail n st, ?_⟩
  intro m hnone hs n hr hfail
  rw [processStart_unknown hnone, nackBranch_eq (Or.inl rfl) hs,
    emitWithRetries_exhausts ctx ([4] ++ st.nodeAddr ++ [st.sid] ++ [0]) onOkNack onFailNack n
      { st with status := PStatus.errorNotAuthorized } hr hfail]
  refine ⟨_, rfl, rfl, rfl, ?_⟩
  simp [onFailNack]

end Prov

namespace Prov

/-- Concrete collaborators for witness instantiations: one whitelisted UID
[9] with SECURED method and a 32-byte factory key; all sends succeed. -/
def wCtx : SessionCtx :=
  ⟨fun u => if u = [9] then some ⟨1, List.range 32⟩ else none,
   fun _ => [42], fun _ _ => List.replicate 16 0, fun _ _ => List.replicate 16 7,
   fun _ => .ok⟩

/-- A concrete idle session state for witness instantiations. -/
def wSt : SState := ⟨[1, 2, 3, 4], 5, 100, .idle, .ongoing, 1, none, none, 0, false, 0, []⟩

/-- A concrete WAIT_RESPONSE session state for witness instantiations. -/
def wStWR : SState :=
  ⟨[1, 2, 3, 4], 5, 100, .waitResponse, .ongoing, 1, none, none, 0, true, 1, []⟩

/-- A concrete envelope for witness instantiations. -/
def wEnv : Envelope := ⟨some 1, some 2, some 50⟩

/-- A concrete known-UID START frame for witness instantiations. -/
def wStart : StartFields := ⟨[1, 2, 3, 4], 5, 1, List.replicate 16 0, [9]⟩

/-- A concrete unknown-UID START frame for witness instantiations. -/
def wStartUnknown : StartFields := ⟨[1, 2, 3, 4], 5, 1, List.replicate 16 0, [8]⟩

/-- A WAIT_RESPONSE session state whose counter has climbed to
2^16 − 1 (reachable: seed 65534 followed by one successful DATA
emission). -/
def wStWR65535 : SState :=
  ⟨[1, 2, 3, 4], 5, 65535, .waitResponse, .ongoing, 1, none, none, 0, true, 1, []⟩

/-- C3 counterexample: in WAIT_RESPONSE with counter 65535 (a 16-bit
value) a duplicate START for the known SECURED UID does not trigger a
fresh DATA emission with the counter incremented again — serializing
the post-increment counter 2^16 raises `OverflowError`, the handler
produces no state, nothing is sent and the timer is not restarted. -/
theorem counterIncrementCounterexample :
    wStWR65535.state = .waitResponse ∧ wStWR65535.counter < 2 ^ 16 ∧
    wCtx.lookup wStart.uid ≠ none ∧
    stateWaitResponse wCtx wStWR65535 (.packetReceived (.start wStart wEnv)) = none := by
  decide

/-- C3 witness: the DATA-path conjunct at a concrete session and START. -/
theorem counterIncrementWitness :
    wCtx.lookup wStart.uid = some ⟨1, List.range 32⟩ ∧ wStart.method ≠ 0 ∧
    wSt.sid < 256 ∧ wSt.counter + 1 < 2 ^ 16 ∧
    (∃ st1, processStart wCtx wSt wStart = some st1 ∧
      st1.counter = wSt.counter + 1 ∧ st1.state = .waitResponse ∧ st1.timer = true ∧
      ∃ rest, st1.sent = wSt.sent ++ [⟨wSt.gwId, wSt.sinkId,
        [2] ++ wSt.nodeAddr ++ [wSt.sid] ++ [1] ++
          [(wSt.counter + 1) % 256, (wSt.counter + 1) / 256] ++ rest⟩]) :=
  ⟨by decide, by decide, by decide, by decide,
    ((counterIncrement wCtx wSt wStart ⟨1, List.range 32⟩ wEnv (by decide) (by decide)
      (by decide) (by decide) (by decide) (fun k b => by simp [wCtx])
      (by decide)).1 (by decide)).1⟩

/-- C5 witness: the unknown-UID conjunct at a concrete session and START. -/
theorem nackDispatchInIdleWitness :
    wSt.sid < 256 ∧ wCtx.res wSt.sent.length = .ok ∧ wCtx.lookup wStartUnknown.uid = none ∧
    (∃ st1, stateIdle wCtx wSt (.packetReceived (.start wStartUnknown wEnv)) = some st1 ∧
      st1.sent = wSt.sent ++ [⟨(updateOrigin wSt wEnv).gwId, (updateOrigin wSt wEnv).sinkId,
        [4] ++ wSt.nodeAddr ++ [wSt.sid] ++ [0]⟩] ∧
      st1.status = .errorNotAuthorized) :=
  ⟨by decide, by decide, by decide,
    (nackDispatchInIdle wCtx wSt wStartUnknown wEnv (by decide) (by decide)).1 (by decide)⟩

/-- C6 witness: the first-send-succeeds conjunct at a concrete session. -/
theorem sendRetryProtocolWitness :
    ((0 : Nat) : Int) ≤ wSt.retry ∧ wCtx.res (wSt.sent.length + 0) = .ok ∧
    emitWithRetries wCtx [1] id id wSt =
      id { wSt with retry := wSt.retry - ((0 : Nat) : Int),
                    sent := wSt.sent ++ List.replicate (0 + 1) ⟨wSt.gwId, wSt.sinkId, [1]⟩ } :=
  ⟨by decide, by decide,
    (sendRetryProtocol wCtx [1] id id wSt).1 0 (by decide)
      (fun i hi => absurd hi (Nat.not_lt_zero i)) (by decide)⟩

/-- C7 witness: the DATA_ACK conjunct at a concrete WAIT_RESPONSE session. -/
theorem waitResponseTerminalWitness :
    wStWR.state = .waitResponse ∧
    (∃ st1, step wCtx wStWR (.packetReceived (.dataAck ⟨[1, 2, 3, 4], 5⟩ wEnv)) = some st1 ∧
      st1.status = .success ∧ st1.timer = false ∧
      ∀ evs, runEvents wCtx st1 evs = some (st1, evs)) :=
  ⟨rfl, (waitResponseTerminal wCtx wStWR rfl).1 ⟨[1, 2, 3, 4], 5⟩ wEnv⟩

/-- C8 witness: the adopt-new-origin conjunct at a concrete state. -/
theorem originUpdateRuleWitness :
    (0 : Int) ≤ wSt.txTime ∧
    (∀ t, wEnv.txTime = some t → wSt.txTime < t →
      updateOrigin wSt wEnv = { wSt with gwId := wEnv.gwId, sinkId := wEnv.sinkId, txTime := t }) :=
  ⟨by decide, (originUpdateRule wSt wEnv (by decide)).1⟩

/-- C10 witness: a DATA frame in WAIT_RESPONSE at a concrete state. -/
theorem dataFrameIgnoredWitness :
    wStWR.state = .waitResponse ∧ wStWR.status = .ongoing ∧
    step wCtx wStWR (.packetReceived (.data ⟨[1, 2, 3, 4], 5, 1, 6, [7], []⟩ wEnv)) =
      some (updateOrigin wStWR wEnv) ∧
    (updateOrigin wStWR wEnv).status = .ongoing :=
  ⟨rfl, rfl,
    (dataFrameIgnoredInWaitResponse wCtx wStWR ⟨[1, 2, 3, 4], 5, 1, 6, [7], []⟩ wEnv rfl rfl).1,
    (dataFrameIgnoredInWaitResponse wCtx wStWR ⟨[1, 2, 3, 4], 5, 1, 6, [7], []⟩ wEnv rfl rfl).2.2.1⟩

end Prov
